import Mathlib

/-!
SHT31 humidity / temperature sensor driver (`sht31.c`)

A shallow embedding of the driver's cached-read path (`sht31_read`,
`sht31_temp_show`, `sht31_hum_show`) and of its attach routine (`sht31_probe`),
followed by theorems about them.

Modelling conventions:

* `unsigned long` values are naturals reduced modulo `2 ^ BITS_PER_LONG`;
  `int` arithmetic is done in `Int` and wrapped to 32 bits after every
  operation (`wrap_int`);
* `uint8_t` is `Fin 256`;
* everything the driver calls into (bus transfers, sleeping, logging, the reset
  line, attribute files) is recorded, in order, in a list of `Event`s; what the
  outside world answers (return codes, received bytes, the tick counter) is
  supplied by an `Env` / `ProbeEnv` record;
* the mutex is not modelled: the embedding is sequential.
-/

namespace Sht31

/-! ## Kernel environment -/

/-- The two build-time constants of the kernel the driver is compiled against. -/
structure Kernel where
  /-- Width of `long` / `unsigned long` in bits (32 or 64 on Linux). -/
  BITS_PER_LONG : Nat
  /-- Number of jiffies per second. -/
  HZ : Nat
deriving DecidableEq, Repr

/-- Reduction of a natural number to an `unsigned long`. -/
def ulong (k : Kernel) (x : Nat) : Nat :=
  x % 2 ^ k.BITS_PER_LONG

/-- The cast `(long)x` of an `unsigned long` value (two's complement). -/
def to_long (k : Kernel) (x : Nat) : Int :=
  if ulong k x < 2 ^ (k.BITS_PER_LONG - 1) then (ulong k x : Int)
  else (ulong k x : Int) - 2 ^ k.BITS_PER_LONG

/-- The kernel's `time_after(a, b)` from `linux/jiffies.h`, which is
`((long)((b) - (a)) < 0)` on `unsigned long` operands. -/
def time_after (k : Kernel) (a b : Nat) : Bool :=
  decide (to_long k (ulong k b + 2 ^ k.BITS_PER_LONG - ulong k a) < 0)

/-- Wrap-around of a 32-bit signed `int`. -/
def wrap_int (x : Int) : Int :=
  (x + 2 ^ 31) % 2 ^ 32 - 2 ^ 31

/-! ## Data model -/

def SHT31_MEAS_EXP_PERIOD_S : Nat := 1

/-- The C `struct sht31_measurement`. -/
structure sht31_measurement where
  exp_time : Nat
  temp : Int
  hum : Int
deriving DecidableEq, Repr

/-- The two attribute files declared with `DEVICE_ATTR`. -/
inductive Attr where
  | temperature
  | humidity
deriving DecidableEq, Repr

/-- Calls the driver makes into the rest of the kernel, as they appear in the
source. -/
inductive Event where
  | i2c_master_send (bytes : List Nat)
  | i2c_master_recv (count : Nat)
  | msleep (ms : Nat)
  | ndelay (ns : Nat)
  | gpiod_set_value (value : Nat)
  | mutex_init
  | device_create_file (a : Attr)
  | device_remove_file (a : Attr)
  | dev_err (msg : String)
  | dev_info (msg : String)
deriving DecidableEq, Repr

/-- The C `struct sht31`: the cached measurement, together with the record of
the calls made so far through its `dev` and `rst` handles (oldest first). -/
structure sht31 where
  meas : sht31_measurement
  trace : List Event
deriving DecidableEq, Repr

/-- What the outside world does during one accessor call. -/
structure Env where
  /-- Tick counter when the accessor evaluates `time_after(jiffies, ...)`. -/
  jiffies : Nat
  /-- Return value of `i2c_master_send`. -/
  send_ret : Int
  /-- Return value of `i2c_master_recv`. -/
  recv_ret : Int
  /-- Content of `buf` after `i2c_master_recv`. -/
  buf : Fin 6 → Fin 256
  /-- Tick counter when `sht31_read` computes the new `exp_time`. -/
  jiffies_done : Nat

/-- The transport calls (send / receive) among a list of events. -/
def bus_calls (tr : List Event) : List Event :=
  tr.filter fun ev =>
    match ev with
    | Event.i2c_master_send _ => true
    | Event.i2c_master_recv _ => true
    | _ => false

/-! ## The measurement function -/

/-- The command bytes `cmd[] = {0x24, 0x00}`. -/
def cmd : List Nat := [0x24, 0x00]

/-- The raw code `(buf[i]<<8 | buf[j])`. -/
def raw_code (buf : Fin 6 → Fin 256) (i j : Fin 6) : Nat :=
  (buf i).val <<< 8 ||| (buf j).val

/-- The right-hand side `175 * (buf[0]<<8 | buf[1]) / 65535 - 45` in `int`
arithmetic. -/
def conv_temp (buf : Fin 6 → Fin 256) : Int :=
  wrap_int (wrap_int ((wrap_int (175 * (raw_code buf 0 1 : Int))).tdiv 65535) - 45)

/-- The right-hand side `100 * (buf[3]<<8 | buf[4]) / 65535` in `int`
arithmetic. -/
def conv_hum (buf : Fin 6 → Fin 256) : Int :=
  wrap_int ((wrap_int (100 * (raw_code buf 3 4 : Int))).tdiv 65535)

/-- The function `sht31_read`: returns the C return value and the updated
structure. -/
def sht31_read (k : Kernel) (e : Env) (s : sht31) : Int × sht31 :=
  let s1 : sht31 := { s with trace := s.trace ++ [Event.i2c_master_send cmd] }
  if e.send_ret < 0 then
    (e.send_ret, { s1 with trace := s1.trace ++ [Event.dev_err "failed to send command"] })
  else
    let s2 : sht31 := { s1 with trace := s1.trace ++ [Event.msleep 15, Event.i2c_master_recv 6] }
    if e.recv_ret < 0 then
      (e.recv_ret,
        { s2 with trace := s2.trace ++ [Event.dev_err "failed to read measurement result"] })
    else
      (0, { s2 with
              meas :=
                { temp := conv_temp e.buf
                  hum := conv_hum e.buf
                  exp_time := ulong k (ulong k e.jiffies_done + SHT31_MEAS_EXP_PERIOD_S * k.HZ) } })

/-! ## The attribute accessors -/

/-- Result of a `show` callback: the text written to the caller's buffer and the
returned byte count. -/
structure ShowResult where
  text : String
  ret : Int
deriving DecidableEq, Repr

/-- The call `sprintf(buf, "%d\n", v)`: the text written and the count returned. -/
def sprintf_d (v : Int) : ShowResult :=
  { text := toString v ++ "\n", ret := ((toString v ++ "\n").length : Int) }

/-- The function `sht31_temp_show`. -/
def sht31_temp_show (k : Kernel) (e : Env) (s : sht31) : ShowResult × sht31 :=
  let s1 := if time_after k e.jiffies s.meas.exp_time then (sht31_read k e s).2 else s
  let temp := s1.meas.temp
  (sprintf_d temp, s1)

/-- The function `sht31_hum_show`. -/
def sht31_hum_show (k : Kernel) (e : Env) (s : sht31) : ShowResult × sht31 :=
  let s1 := if time_after k e.jiffies s.meas.exp_time then (sht31_read k e s).2 else s
  let hum := s1.meas.hum
  (sprintf_d hum, s1)

/-- One attribute read: which file is read, and what the world does meanwhile. -/
structure Access where
  attr : Attr
  env : Env

/-- Dispatch of an attribute read to its `show` callback. -/
def attr_show (k : Kernel) (a : Access) (s : sht31) : ShowResult × sht31 :=
  match a.attr with
  | Attr.temperature => sht31_temp_show k a.env s
  | Attr.humidity => sht31_hum_show k a.env s

/-- The value an attribute read reports when it is served from `m`. -/
def cached_value (a : Attr) (m : sht31_measurement) : Int :=
  match a with
  | Attr.temperature => m.temp
  | Attr.humidity => m.hum

/-- A sequence of attribute reads, in order; returns every result and the final
state. -/
def run_accesses (k : Kernel) : List Access → sht31 → List ShowResult × sht31
  | [], s => ([], s)
  | a :: rest, s =>
    let r := attr_show k a s
    let rs := run_accesses k rest r.2
    (r.1 :: rs.1, rs.2)

/-! ## Attach -/

/-- Result of `devm_gpiod_get`: a valid descriptor, or an `ERR_PTR` carrying the
errno `-(n + 1)`, which ranges over `-4095 .. -1` (`MAX_ERRNO` is 4095). -/
inductive GpiodResult where
  | desc
  | err_ptr (n : Fin 4095)
deriving DecidableEq, Repr

/-- The kernel's `PTR_ERR` on an error pointer. -/
def PTR_ERR (n : Fin 4095) : Int :=
  -((n.val : Int) + 1)

def ENOMEM : Int := 12

/-- What the outside world answers during `sht31_probe`. -/
structure ProbeEnv where
  /-- Whether `devm_kzalloc` returns a non-NULL pointer. -/
  kzalloc_ok : Bool
  /-- Result of `devm_gpiod_get(&dev->dev, "rst", 0)`. -/
  rst : GpiodResult
  /-- Return value of `device_create_file` for the temperature attribute. -/
  create_temp : Int
  /-- Return value of `device_create_file` for the humidity attribute. -/
  create_hum : Int
  /-- What the memory holding `meas` contains after the allocation. The source
  requests `sizeof(sht31)` bytes, the size of the pointer, so only the leading
  `dev` field lies inside the zero-filled block and the code does not fix the
  content of `meas`. -/
  heap_meas : sht31_measurement
deriving DecidableEq, Repr

/-- The part of `struct i2c_client` the attach routine acts on. -/
structure i2c_client where
  /-- Driver data set with `i2c_set_clientdata`. -/
  clientdata : Option sht31
  /-- Attribute files currently registered on the device. -/
  files : List Attr
  /-- Calls made during attach, oldest first. -/
  trace : List Event
deriving DecidableEq, Repr

/-- A session whose cache is all zero (temperature 0, humidity 0, expiry 0) and
through which nothing has been done yet: the zero-initialised, never-cached
state. It is a premise of statements about such a cache; `sht31_probe` itself
does not guarantee it (see `ProbeEnv.heap_meas`). -/
def zero_session : sht31 :=
  { meas := { exp_time := 0, temp := 0, hum := 0 }, trace := [] }

/-- The kernel's `device_create_file`: the file exists afterwards exactly when
the call returns 0. -/
def device_create_file (ret : Int) (a : Attr) (d : i2c_client) : Int × i2c_client :=
  let d1 : i2c_client := { d with trace := d.trace ++ [Event.device_create_file a] }
  if ret = 0 then (ret, { d1 with files := d1.files ++ [a] }) else (ret, d1)

/-- The kernel's `device_remove_file`. -/
def device_remove_file (a : Attr) (d : i2c_client) : i2c_client :=
  { d with files := d.files.filter (fun f => decide (f ≠ a))
           trace := d.trace ++ [Event.device_remove_file a] }

/-- Appends a log line. -/
def log_err (msg : String) (d : i2c_client) : i2c_client :=
  { d with trace := d.trace ++ [Event.dev_err msg] }

/-- The function `sht31_probe`: returns the C return value and the device
afterwards. -/
def sht31_probe (p : ProbeEnv) (dev : i2c_client) : Int × i2c_client :=
  if !p.kzalloc_ok then
    (-ENOMEM, log_err "failed to allocate struct sht31" dev)
  else
    let d1 : i2c_client := { dev with clientdata := some { meas := p.heap_meas, trace := [] } }
    match p.rst with
    | GpiodResult.err_ptr n => (PTR_ERR n, log_err "failed to allocate rst" d1)
    | GpiodResult.desc =>
      let r2 := device_create_file p.create_temp Attr.temperature d1
      if r2.1 ≠ 0 then
        (r2.1, log_err "failed to create temperature attr file" r2.2)
      else
        let r3 := device_create_file p.create_hum Attr.humidity r2.2
        if r3.1 ≠ 0 then
          (r3.1, device_remove_file Attr.temperature
                   (log_err "failed to create humidity attr file" r3.2))
        else
          (0, { r3.2 with
                  trace := r3.2.trace ++
                    [Event.mutex_init, Event.gpiod_set_value 1, Event.ndelay 350,
                     Event.gpiod_set_value 0, Event.dev_info "probed"] })

/-- The function `sht31_remove`. -/
def sht31_remove (dev : i2c_client) : Int × i2c_client :=
  let d1 := device_remove_file Attr.humidity dev
  let d2 := device_remove_file Attr.temperature d1
  (0, { d2 with trace := d2.trace ++ [Event.dev_info "removed"] })

/-- The values driven on the reset line among a list of events. -/
def rst_writes (tr : List Event) : List Event :=
  tr.filter fun ev =>
    match ev with
    | Event.gpiod_set_value _ => true
    | _ => false

/-- A device before attach: no driver data, no attribute file, nothing done. -/
def unbound_client : i2c_client :=
  { clientdata := none, files := [], trace := [] }

/-! ## Concrete inputs used in examples -/

/-- The golden response `[0x66, 0x66, 0x00, 0x66, 0x66, 0x00]`. -/
def golden_buf : Fin 6 → Fin 256 :=
  ![0x66, 0x66, 0x00, 0x66, 0x66, 0x00]

/-- The golden response with both checksum bytes replaced. -/
def golden_buf_bad_crc : Fin 6 → Fin 256 :=
  ![0x66, 0x66, 0xAB, 0x66, 0x66, 0xCD]

/-- A 32-bit kernel ticking 1000 times per second. -/
def linux32 : Kernel :=
  { BITS_PER_LONG := 32, HZ := 1000 }

/-- A 64-bit kernel ticking 250 times per second. -/
def linux64 : Kernel :=
  { BITS_PER_LONG := 64, HZ := 250 }

/-- An exchange at tick 5000 in which both transfers succeed and the sensor
answers with the golden response. -/
def golden_env : Env :=
  { jiffies := 5000, send_ret := 2, recv_ret := 6, buf := golden_buf, jiffies_done := 5015 }

/-- The same exchange with the checksum bytes of the response replaced. -/
def bad_crc_env : Env :=
  { jiffies := 5000, send_ret := 2, recv_ret := 6, buf := golden_buf_bad_crc,
    jiffies_done := 5015 }

/-- An exchange at tick 5000 in which the send is not acknowledged
(`-EREMOTEIO`). -/
def send_fail_env : Env :=
  { jiffies := 5000, send_ret := -121, recv_ret := 6, buf := golden_buf, jiffies_done := 5015 }

/-- An exchange at tick 5000 in which the send succeeds and the receive fails
(`-EREMOTEIO`), leaving arbitrary bytes in the buffer. -/
def recv_fail_env : Env :=
  { jiffies := 5000, send_ret := 2, recv_ret := -121, buf := golden_buf_bad_crc,
    jiffies_done := 5015 }

/-- A session holding a measurement that expired at tick 1000. -/
def expired_session : sht31 :=
  { meas := { exp_time := 1000, temp := 21, hum := 55 }, trace := [] }

/-- An attribute read within the validity window of a refresh done at tick 5015
on `linux32`. -/
def soon_env : Env :=
  { jiffies := 6015, send_ret := 2, recv_ret := 6, buf := golden_buf_bad_crc,
    jiffies_done := 6030 }

/-- Ten seconds after the boot of a 32-bit kernel with `HZ = 1000`: Linux starts
the counter at `INITIAL_JIFFIES = (unsigned long)(unsigned int)(-300 * HZ)`,
which is `4294667296`, five minutes before the wrap. A healthy sensor would
answer with the golden response. -/
def boot_env : Env :=
  { jiffies := 4294677296, send_ret := 2, recv_ret := 6, buf := golden_buf,
    jiffies_done := 4294677311 }

/-- An attribute read on a 32-bit kernel `2 ^ 31 + 1` ticks after tick 1000,
with no wrap of the counter in between; the sensor would answer. -/
def late_env : Env :=
  { jiffies := 2147484649, send_ret := 2, recv_ret := 6, buf := golden_buf,
    jiffies_done := 2147484664 }

/-- Two attribute reads made at the last tick of that window. -/
def soon_reads : List Access :=
  [{ attr := Attr.temperature, env := soon_env }, { attr := Attr.humidity, env := soon_env }]

/-! ## Arithmetic of the conversion -/

theorem raw_code_eq (buf : Fin 6 → Fin 256) (i j : Fin 6) :
    raw_code buf i j = (buf i).val * 256 + (buf j).val := by
  unfold raw_code
  have hj : (buf j).val < 2 ^ 8 := (buf j).isLt
  rw [Nat.shiftLeft_eq, Nat.mul_comm, ← Nat.mul_add_lt_is_or hj]

theorem raw_code_le (buf : Fin 6 → Fin 256) (i j : Fin 6) :
    raw_code buf i j ≤ 65535 := by
  rw [raw_code_eq]
  have hi := (buf i).isLt
  have hj := (buf j).isLt
  omega

theorem wrap_int_id (x : Int) (lo : -2147483648 ≤ x) (hi : x ≤ 2147483647) :
    wrap_int x = x := by
  unfold wrap_int
  norm_num
  omega

theorem tdiv_65535_bounds (x : Int) (h0 : 0 ≤ x) :
    0 ≤ x.tdiv 65535 ∧ 65535 * x.tdiv 65535 ≤ x ∧ x < 65535 * x.tdiv 65535 + 65535 := by
  rw [Int.tdiv_eq_ediv h0 (by norm_num)]
  omega

theorem conv_temp_eq (buf : Fin 6 → Fin 256) :
    conv_temp buf = (175 * (raw_code buf 0 1 : Int)).tdiv 65535 - 45 := by
  have hr := raw_code_le buf 0 1
  have hb := tdiv_65535_bounds (175 * (raw_code buf 0 1 : Int)) (by omega)
  unfold conv_temp
  rw [wrap_int_id (175 * (raw_code buf 0 1 : Int)) (by omega) (by omega)]
  rw [wrap_int_id ((175 * (raw_code buf 0 1 : Int)).tdiv 65535) (by omega) (by omega)]
  rw [wrap_int_id _ (by omega) (by omega)]

theorem conv_hum_eq (buf : Fin 6 → Fin 256) :
    conv_hum buf = (100 * (raw_code buf 3 4 : Int)).tdiv 65535 := by
  have hr := raw_code_le buf 3 4
  have hb := tdiv_65535_bounds (100 * (raw_code buf 3 4 : Int)) (by omega)
  unfold conv_hum
  rw [wrap_int_id (100 * (raw_code buf 3 4 : Int)) (by omega) (by omega)]
  rw [wrap_int_id _ (by omega) (by omega)]

/-! ## Jiffies arithmetic -/

theorem time_after_eq (k : Kernel) (a b : Nat) :
    time_after k a b =
      decide (2 ^ (k.BITS_PER_LONG - 1) ≤
        (ulong k b + 2 ^ k.BITS_PER_LONG - ulong k a) % 2 ^ k.BITS_PER_LONG) := by
  unfold time_after to_long
  have hpos : 0 < 2 ^ k.BITS_PER_LONG := Nat.pow_pos (by norm_num)
  have hlt : ulong k (ulong k b + 2 ^ k.BITS_PER_LONG - ulong k a) < 2 ^ k.BITS_PER_LONG :=
    Nat.mod_lt _ hpos
  have hu : ulong k (ulong k b + 2 ^ k.BITS_PER_LONG - ulong k a) =
      (ulong k b + 2 ^ k.BITS_PER_LONG - ulong k a) % 2 ^ k.BITS_PER_LONG := rfl
  rw [← hu]
  by_cases h : ulong k (ulong k b + 2 ^ k.BITS_PER_LONG - ulong k a) < 2 ^ (k.BITS_PER_LONG - 1)
  · rw [if_pos h]
    have h1 : ¬ ((ulong k (ulong k b + 2 ^ k.BITS_PER_LONG - ulong k a) : Int) < 0) := by
      push_neg
      exact Int.ofNat_nonneg _
    simp [h1, h]
  · rw [if_neg h]
    have h1 : ((ulong k (ulong k b + 2 ^ k.BITS_PER_LONG - ulong k a) : Int)
        - 2 ^ k.BITS_PER_LONG < 0) := by
      have : ((ulong k (ulong k b + 2 ^ k.BITS_PER_LONG - ulong k a) : Nat) : Int)
          < ((2 ^ k.BITS_PER_LONG : Nat) : Int) := Int.ofNat_lt.mpr hlt
      push_cast at this
      omega
    simp [h1, not_lt.mp h]

theorem sub_mod_window (M t d h : Nat) (hM : 0 < M) (hd : d ≤ h) (hh : h < M) :
    ((t % M + h) % M + M - (t + d) % M) % M = h - d := by
  have hlt : (t + d) % M < M := Nat.mod_lt _ hM
  have key : ((t % M + h) % M + M - (t + d) % M) ≡ h - d [MOD M] := by
    apply Nat.ModEq.add_right_cancel' ((t + d) % M)
    have e1 : (t % M + h) % M + M - (t + d) % M + (t + d) % M = (t % M + h) % M + M := by omega
    rw [e1]
    calc (t % M + h) % M + M ≡ (t % M + h) % M [MOD M] := by simp [Nat.ModEq]
      _ ≡ t % M + h [MOD M] := Nat.mod_modEq _ _
      _ ≡ t + h [MOD M] := (Nat.mod_modEq t M).add_right h
      _ = (h - d) + (t + d) := by omega
      _ ≡ (h - d) + (t + d) % M [MOD M] := (Nat.mod_modEq (t + d) M).symm.add_left _
  rw [key]
  exact Nat.mod_eq_of_lt (by omega)

theorem half_lt_pow (w : Nat) : 2 ^ (w - 1) ≤ 2 ^ w :=
  Nat.pow_le_pow_right (by norm_num) (Nat.sub_le w 1)

/-- A tick whose counter value is non-zero and at most half the range is past
the zero expiry. -/
theorem time_after_zero (k : Kernel) (j : Nat)
    (hpos : 0 < ulong k j) (hle : ulong k j ≤ 2 ^ (k.BITS_PER_LONG - 1)) :
    time_after k j 0 = true := by
  rw [time_after_eq]
  have hM : 0 < 2 ^ k.BITS_PER_LONG := Nat.pow_pos (by norm_num)
  have hj : ulong k j < 2 ^ k.BITS_PER_LONG := Nat.mod_lt _ hM
  have h0 : ulong k 0 = 0 := Nat.zero_mod _
  have hw : 2 ^ k.BITS_PER_LONG = 2 * 2 ^ (k.BITS_PER_LONG - 1) := by
    cases hb : k.BITS_PER_LONG with
    | zero =>
      rw [hb] at hj
      omega
    | succ n => rw [Nat.add_sub_cancel, Nat.pow_succ, Nat.mul_comm]
  rw [h0, Nat.zero_add, Nat.mod_eq_of_lt (by omega)]
  simp only [decide_eq_true_eq]
  omega

theorem sub_mod_past (M x j : Nat) (hM : 0 < M) (hlt : x < j) (hle : j - x < M) :
    (x % M + M - j % M) % M = M - (j - x) := by
  have hj : j % M < M := Nat.mod_lt _ hM
  have key : (x % M + M - j % M) ≡ M - (j - x) [MOD M] := by
    apply Nat.ModEq.add_right_cancel' (j % M)
    have e1 : x % M + M - j % M + j % M = x % M + M := by omega
    rw [e1]
    calc x % M + M ≡ x + M [MOD M] := (Nat.mod_modEq x M).add_right M
      _ = (M - (j - x)) + j := by omega
      _ ≡ (M - (j - x)) + j % M [MOD M] := (Nat.mod_modEq j M).symm.add_left _
  rw [key]
  exact Nat.mod_eq_of_lt (by omega)

/-- A tick that lies after the expiry tick by at most half the range of
`unsigned long` is past the stored expiry. -/
theorem time_after_of_past (k : Kernel) (hw : 0 < k.BITS_PER_LONG) (expiry j : Nat)
    (hpast : expiry < j) (hnear : j - expiry ≤ 2 ^ (k.BITS_PER_LONG - 1)) :
    time_after k j (ulong k expiry) = true := by
  rw [time_after_eq]
  have hM : 0 < 2 ^ k.BITS_PER_LONG := Nat.pow_pos (by norm_num)
  have hH : 0 < 2 ^ (k.BITS_PER_LONG - 1) := Nat.pow_pos (by norm_num)
  have hdouble : 2 ^ k.BITS_PER_LONG = 2 * 2 ^ (k.BITS_PER_LONG - 1) := by
    cases hb : k.BITS_PER_LONG with
    | zero => omega
    | succ n => rw [Nat.add_sub_cancel, Nat.pow_succ, Nat.mul_comm]
  have hs := sub_mod_past (2 ^ k.BITS_PER_LONG) expiry j hM hpast (by omega)
  unfold ulong
  rw [Nat.mod_mod, hs]
  simp only [decide_eq_true_eq]
  omega

/-- A tick whose counter value equals the stored expiry is not past it,
whatever that value is. -/
theorem time_after_self (k : Kernel) (x : Nat) : time_after k x x = false := by
  rw [time_after_eq]
  have hM : 0 < 2 ^ k.BITS_PER_LONG := Nat.pow_pos (by norm_num)
  have hH : 0 < 2 ^ (k.BITS_PER_LONG - 1) := Nat.pow_pos (by norm_num)
  have hx : ulong k x < 2 ^ k.BITS_PER_LONG := Nat.mod_lt _ hM
  have e : ulong k x + 2 ^ k.BITS_PER_LONG - ulong k x = 2 ^ k.BITS_PER_LONG := by omega
  rw [e, Nat.mod_self]
  simp only [decide_eq_false_iff_not]
  omega

/-- Within one period after the tick `t` at which `exp_time` was computed, the
cache is not stale. -/
theorem not_time_after_within (k : Kernel) (hHZ : k.HZ < 2 ^ (k.BITS_PER_LONG - 1))
    (t d : Nat) (hd : d ≤ k.HZ) :
    time_after k (t + d) (ulong k (ulong k t + SHT31_MEAS_EXP_PERIOD_S * k.HZ)) = false := by
  rw [time_after_eq]
  have hpos : 0 < 2 ^ k.BITS_PER_LONG := Nat.pow_pos (by norm_num)
  have hhalf := half_lt_pow k.BITS_PER_LONG
  have hw := sub_mod_window (2 ^ k.BITS_PER_LONG) t d k.HZ hpos hd (by omega)
  unfold ulong SHT31_MEAS_EXP_PERIOD_S
  rw [Nat.one_mul, Nat.mod_mod, hw]
  simp
  omega

/-! ## The outcome of `sht31_read` on each of its three paths -/

theorem sht31_read_ok (k : Kernel) (e : Env) (s : sht31)
    (hsend : 0 ≤ e.send_ret) (hrecv : 0 ≤ e.recv_ret) :
    sht31_read k e s =
      (0, { meas :=
              { temp := conv_temp e.buf
                hum := conv_hum e.buf
                exp_time := ulong k (ulong k e.jiffies_done + SHT31_MEAS_EXP_PERIOD_S * k.HZ) }
            trace := s.trace ++ [Event.i2c_master_send cmd] ++
              [Event.msleep 15, Event.i2c_master_recv 6] }) := by
  unfold sht31_read
  rw [if_neg (not_lt.mpr hsend), if_neg (not_lt.mpr hrecv)]

theorem sht31_read_send_failed (k : Kernel) (e : Env) (s : sht31) (hsend : e.send_ret < 0) :
    sht31_read k e s =
      (e.send_ret,
        { meas := s.meas
          trace := s.trace ++ [Event.i2c_master_send cmd] ++
            [Event.dev_err "failed to send command"] }) := by
  unfold sht31_read
  rw [if_pos hsend]

theorem sht31_read_recv_failed (k : Kernel) (e : Env) (s : sht31)
    (hsend : 0 ≤ e.send_ret) (hrecv : e.recv_ret < 0) :
    sht31_read k e s =
      (e.recv_ret,
        { meas := s.meas
          trace := s.trace ++ [Event.i2c_master_send cmd] ++
            [Event.msleep 15, Event.i2c_master_recv 6] ++
            [Event.dev_err "failed to read measurement result"] }) := by
  unfold sht31_read
  rw [if_neg (not_lt.mpr hsend), if_pos hrecv]

/-! ## Conversion claims -/

/-- C1: after a successful send and a successful 6-byte receive, `sht31_read`
returns 0 and stores `temp = (175 * (b[0]*256 + b[1])) / 65535 - 45` and
`hum = (100 * (b[3]*256 + b[4])) / 65535` with truncating division, the raw
codes being the big-endian 16-bit values of bytes 0-1 and 3-4. -/
theorem sht31_read_conversion (k : Kernel) (e : Env) (s : sht31)
    (hsend : 0 ≤ e.send_ret) (hrecv : 0 ≤ e.recv_ret) :
    (sht31_read k e s).1 = 0 ∧
    (sht31_read k e s).2.meas.temp =
      (175 * (((e.buf 0).val * 256 + (e.buf 1).val : Nat) : Int)).tdiv 65535 - 45 ∧
    (sht31_read k e s).2.meas.hum =
      (100 * (((e.buf 3).val * 256 + (e.buf 4).val : Nat) : Int)).tdiv 65535 := by
  rw [sht31_read_ok k e s hsend hrecv]
  refine ⟨rfl, ?_, ?_⟩
  · show conv_temp e.buf = _
    rw [conv_temp_eq, raw_code_eq]
  · show conv_hum e.buf = _
    rw [conv_hum_eq, raw_code_eq]

theorem sht31_read_conversion_witness :
    (sht31_read linux32 golden_env zero_session).1 = 0 ∧
    (sht31_read linux32 golden_env zero_session).2.meas.temp =
      (175 * (((golden_env.buf 0).val * 256 + (golden_env.buf 1).val : Nat) : Int)).tdiv 65535
        - 45 ∧
    (sht31_read linux32 golden_env zero_session).2.meas.hum =
      (100 * (((golden_env.buf 3).val * 256 + (golden_env.buf 4).val : Nat) : Int)).tdiv 65535 :=
  sht31_read_conversion linux32 golden_env zero_session (by decide) (by decide)

/-- C6 (as amended): for the golden response `[0x66, 0x66, 0x00, 0x66, 0x66, 0x00]`
the raw temperature code is 26214 and a successful refresh stores the
temperature 25 (and the humidity 40): `175 * 26214 = 4587450 = 70 * 65535`, so
the quotient is exactly 70. -/
theorem golden_temp_is_25 (k : Kernel) (e : Env) (s : sht31)
    (hsend : 0 ≤ e.send_ret) (hrecv : 0 ≤ e.recv_ret) (hbuf : e.buf = golden_buf) :
    raw_code e.buf 0 1 = 26214 ∧
    (sht31_read k e s).2.meas.temp = 25 ∧
    (sht31_read k e s).2.meas.hum = 40 := by
  rw [sht31_read_ok k e s hsend hrecv, hbuf]
  refine ⟨by decide, ?_, ?_⟩
  · show conv_temp golden_buf = 25
    decide
  · show conv_hum golden_buf = 40
    decide

theorem golden_temp_is_25_witness :
    raw_code golden_env.buf 0 1 = 26214 ∧
    (sht31_read linux32 golden_env zero_session).2.meas.temp = 25 ∧
    (sht31_read linux32 golden_env zero_session).2.meas.hum = 40 :=
  golden_temp_is_25 linux32 golden_env zero_session (by decide) (by decide) rfl

/-- C6 (as stated) fails: on the golden response the stored temperature is not
24. -/
theorem golden_temp_is_not_24 :
    ¬ ((sht31_read linux32 golden_env zero_session).2.meas.temp = 24) := by
  decide

/-- C8: the checksum bytes are ignored. Two responses that agree on bytes 0, 1,
3 and 4 are both accepted (`sht31_read` returns 0) and yield the same stored
temperature and humidity, whatever bytes 2 and 5 are. -/
theorem checksum_bytes_ignored (k : Kernel) (e1 e2 : Env) (s1 s2 : sht31)
    (hsend1 : 0 ≤ e1.send_ret) (hrecv1 : 0 ≤ e1.recv_ret)
    (hsend2 : 0 ≤ e2.send_ret) (hrecv2 : 0 ≤ e2.recv_ret)
    (h0 : e1.buf 0 = e2.buf 0) (h1 : e1.buf 1 = e2.buf 1)
    (h3 : e1.buf 3 = e2.buf 3) (h4 : e1.buf 4 = e2.buf 4) :
    (sht31_read k e1 s1).1 = 0 ∧ (sht31_read k e2 s2).1 = 0 ∧
    (sht31_read k e1 s1).2.meas.temp = (sht31_read k e2 s2).2.meas.temp ∧
    (sht31_read k e1 s1).2.meas.hum = (sht31_read k e2 s2).2.meas.hum := by
  rw [sht31_read_ok k e1 s1 hsend1 hrecv1, sht31_read_ok k e2 s2 hsend2 hrecv2]
  refine ⟨rfl, rfl, ?_, ?_⟩
  · show conv_temp e1.buf = conv_temp e2.buf
    unfold conv_temp raw_code
    rw [h0, h1]
  · show conv_hum e1.buf = conv_hum e2.buf
    unfold conv_hum raw_code
    rw [h3, h4]

theorem checksum_bytes_ignored_witness :
    (sht31_read linux32 golden_env zero_session).1 = 0 ∧
    (sht31_read linux32 bad_crc_env zero_session).1 = 0 ∧
    (sht31_read linux32 golden_env zero_session).2.meas.temp =
      (sht31_read linux32 bad_crc_env zero_session).2.meas.temp ∧
    (sht31_read linux32 golden_env zero_session).2.meas.hum =
      (sht31_read linux32 bad_crc_env zero_session).2.meas.hum :=
  checksum_bytes_ignored linux32 golden_env bad_crc_env zero_session zero_session
    (by decide) (by decide) (by decide) (by decide)
    (by decide) (by decide) (by decide) (by decide)

/-- C10: for every 6-byte response the products `175 * rawTemp` and
`100 * rawHum` are at most 11468625 and 6553500 and so fit a 32-bit `int`
without wrapping; the converted temperature lies in `-45 .. 130` and the
converted humidity in `0 .. 100`; the bounds are attained at the raw codes
0x0000 and 0xFFFF; and these converted values are what a successful
`sht31_read` stores. -/
theorem conversion_bounds (buf : Fin 6 → Fin 256) :
    (175 * (raw_code buf 0 1 : Int) ≤ 11468625 ∧
      wrap_int (175 * (raw_code buf 0 1 : Int)) = 175 * (raw_code buf 0 1 : Int)) ∧
    (100 * (raw_code buf 3 4 : Int) ≤ 6553500 ∧
      wrap_int (100 * (raw_code buf 3 4 : Int)) = 100 * (raw_code buf 3 4 : Int)) ∧
    (-45 ≤ conv_temp buf ∧ conv_temp buf ≤ 130) ∧
    (0 ≤ conv_hum buf ∧ conv_hum buf ≤ 100) ∧
    (raw_code (fun _ => 0) 0 1 = 0x0000 ∧ conv_temp (fun _ => 0) = -45 ∧
      conv_hum (fun _ => 0) = 0) ∧
    (raw_code (fun _ => 255) 0 1 = 0xFFFF ∧ 175 * (raw_code (fun _ => 255) 0 1 : Int) = 11468625 ∧
      100 * (raw_code (fun _ => 255) 3 4 : Int) = 6553500 ∧
      conv_temp (fun _ => 255) = 130 ∧ conv_hum (fun _ => 255) = 100) ∧
    (∀ (k : Kernel) (e : Env) (s : sht31), e.buf = buf → 0 ≤ e.send_ret → 0 ≤ e.recv_ret →
      (sht31_read k e s).2.meas.temp = conv_temp buf ∧
      (sht31_read k e s).2.meas.hum = conv_hum buf) := by
  have ht := raw_code_le buf 0 1
  have hh := raw_code_le buf 3 4
  have bt := tdiv_65535_bounds (175 * (raw_code buf 0 1 : Int)) (by omega)
  have bh := tdiv_65535_bounds (100 * (raw_code buf 3 4 : Int)) (by omega)
  refine ⟨⟨by omega, wrap_int_id _ (by omega) (by omega)⟩,
    ⟨by omega, wrap_int_id _ (by omega) (by omega)⟩, ?_, ?_,
    ⟨by decide, by decide, by decide⟩, ⟨by decide, by decide, by decide, by decide, by decide⟩, ?_⟩
  · rw [conv_temp_eq]
    omega
  · rw [conv_hum_eq]
    omega
  · intro k e s hbuf hsend hrecv
    rw [sht31_read_ok k e s hsend hrecv, hbuf]
    exact ⟨rfl, rfl⟩

/-! ## The accessors on their two paths -/

theorem attr_show_hit (k : Kernel) (a : Access) (s : sht31)
    (hfresh : time_after k a.env.jiffies s.meas.exp_time = false) :
    attr_show k a s = (sprintf_d (cached_value a.attr s.meas), s) := by
  unfold attr_show
  cases hattr : a.attr
  · simp only [sht31_temp_show, hfresh, cached_value]
    rfl
  · simp only [sht31_hum_show, hfresh, cached_value]
    rfl

theorem attr_show_stale (k : Kernel) (a : Access) (s : sht31)
    (hstale : time_after k a.env.jiffies s.meas.exp_time = true) :
    attr_show k a s =
      (sprintf_d (cached_value a.attr (sht31_read k a.env s).2.meas), (sht31_read k a.env s).2) := by
  unfold attr_show
  cases hattr : a.attr
  · simp only [sht31_temp_show, hstale, cached_value]
    rfl
  · simp only [sht31_hum_show, hstale, cached_value]
    rfl

theorem sprintf_d_ret_pos (v : Int) : 0 < (sprintf_d v).ret := by
  unfold sprintf_d
  simp only [String.length_append]
  have : ("\n" : String).length = 1 := by decide
  omega

theorem run_accesses_all_hits (k : Kernel) (s : sht31) (reads : List Access)
    (hfresh : ∀ a ∈ reads, time_after k a.env.jiffies s.meas.exp_time = false) :
    run_accesses k reads s =
      (reads.map (fun a => sprintf_d (cached_value a.attr s.meas)), s) := by
  induction reads with
  | nil => rfl
  | cons a rest ih =>
    have ha := attr_show_hit k a s (hfresh a (List.mem_cons_self a rest))
    have hrest := ih (fun b hb => hfresh b (List.mem_cons_of_mem a hb))
    simp only [run_accesses, ha, hrest, List.map_cons]

theorem sht31_read_starts_with_send (k : Kernel) (e : Env) (s : sht31) :
    ∃ rest, (sht31_read k e s).2.trace = s.trace ++ Event.i2c_master_send cmd :: rest := by
  by_cases hsend : e.send_ret < 0
  · exact ⟨[Event.dev_err "failed to send command"], by
      rw [sht31_read_send_failed k e s hsend]; simp⟩
  · by_cases hrecv : e.recv_ret < 0
    · exact ⟨[Event.msleep 15, Event.i2c_master_recv 6,
          Event.dev_err "failed to read measurement result"], by
        rw [sht31_read_recv_failed k e s (not_lt.mp hsend) hrecv]; simp⟩
    · exact ⟨[Event.msleep 15, Event.i2c_master_recv 6], by
        rw [sht31_read_ok k e s (not_lt.mp hsend) (not_lt.mp hrecv)]; simp⟩

/-! ## Caching claims -/

/-- C2: let a refresh succeed at tick `t` (the tick at which `sht31_read`
computes the expiry, which becomes `t + HZ`). Then every sequence of
temperature / humidity reads made at ticks from `t` up to and including
`t + HZ` leaves the whole state unchanged (hence performs no send and no
receive and keeps the cached measurement) and each read returns the cached
value. The one-second period is assumed to be shorter than half the range of
`unsigned long`, as it is for every kernel configuration. -/
theorem cached_reads_within_period (k : Kernel) (hHZ : k.HZ < 2 ^ (k.BITS_PER_LONG - 1))
    (e : Env) (s : sht31) (hsend : 0 ≤ e.send_ret) (hrecv : 0 ≤ e.recv_ret)
    (reads : List Access)
    (hwin : ∀ a ∈ reads,
      e.jiffies_done ≤ a.env.jiffies ∧ a.env.jiffies ≤ e.jiffies_done + k.HZ) :
    (sht31_read k e s).1 = 0 ∧
    (sht31_read k e s).2.meas.exp_time = ulong k (e.jiffies_done + k.HZ) ∧
    (run_accesses k reads (sht31_read k e s).2).2 = (sht31_read k e s).2 ∧
    bus_calls (run_accesses k reads (sht31_read k e s).2).2.trace =
      bus_calls (sht31_read k e s).2.trace ∧
    (run_accesses k reads (sht31_read k e s).2).1 =
      reads.map (fun a => sprintf_d (cached_value a.attr (sht31_read k e s).2.meas)) := by
  have hfresh : ∀ a ∈ reads,
      time_after k a.env.jiffies (sht31_read k e s).2.meas.exp_time = false := by
    intro a ha
    obtain ⟨h1, h2⟩ := hwin a ha
    have hj : a.env.jiffies = e.jiffies_done + (a.env.jiffies - e.jiffies_done) := by omega
    rw [sht31_read_ok k e s hsend hrecv, hj]
    exact not_time_after_within k hHZ e.jiffies_done _ (by omega)
  have hrun := run_accesses_all_hits k (sht31_read k e s).2 reads hfresh
  rw [hrun]
  refine ⟨?_, ?_, rfl, rfl, rfl⟩
  · rw [sht31_read_ok k e s hsend hrecv]
  · rw [sht31_read_ok k e s hsend hrecv]
    show ulong k (ulong k e.jiffies_done + SHT31_MEAS_EXP_PERIOD_S * k.HZ) = _
    unfold ulong SHT31_MEAS_EXP_PERIOD_S
    rw [Nat.one_mul, Nat.mod_add_mod]

theorem cached_reads_within_period_witness :
    (sht31_read linux32 golden_env expired_session).1 = 0 ∧
    (sht31_read linux32 golden_env expired_session).2.meas.exp_time =
      ulong linux32 (golden_env.jiffies_done + linux32.HZ) ∧
    (run_accesses linux32 soon_reads (sht31_read linux32 golden_env expired_session).2).2 =
      (sht31_read linux32 golden_env expired_session).2 ∧
    bus_calls
        (run_accesses linux32 soon_reads (sht31_read linux32 golden_env expired_session).2).2.trace =
      bus_calls (sht31_read linux32 golden_env expired_session).2.trace ∧
    (run_accesses linux32 soon_reads (sht31_read linux32 golden_env expired_session).2).1 =
      soon_reads.map (fun a =>
        sprintf_d (cached_value a.attr (sht31_read linux32 golden_env expired_session).2.meas)) :=
  cached_reads_within_period linux32 (by decide) golden_env expired_session (by decide)
    (by decide) soon_reads (by decide)

/-- C4: on a stale cache, when the send succeeds and `i2c_master_recv` fails,
temperature, humidity and expiry are unchanged whatever the receive buffer
holds; staleness is therefore judged against the same expiry as before, and the
next read made at any tick that is past that expiry (in particular at the same
tick) starts a new exchange with a send. -/
theorem recv_failure_keeps_cache (k : Kernel) (a : Access) (s : sht31)
    (hstale : time_after k a.env.jiffies s.meas.exp_time = true)
    (hsend : 0 ≤ a.env.send_ret) (hrecv : a.env.recv_ret < 0) :
    (sht31_read k a.env s).1 = a.env.recv_ret ∧
    (sht31_read k a.env s).2.meas = s.meas ∧
    (attr_show k a s).2.meas = s.meas ∧
    (attr_show k a s).1 = sprintf_d (cached_value a.attr s.meas) ∧
    time_after k a.env.jiffies (attr_show k a s).2.meas.exp_time = true ∧
    (∀ next : Access, time_after k next.env.jiffies s.meas.exp_time = true →
      ∃ rest, (attr_show k next (attr_show k a s).2).2.trace =
        (attr_show k a s).2.trace ++ Event.i2c_master_send cmd :: rest) := by
  have hmeas : (attr_show k a s).2.meas = s.meas := by
    rw [attr_show_stale k a s hstale, sht31_read_recv_failed k a.env s hsend hrecv]
  refine ⟨?_, ?_, hmeas, ?_, ?_, ?_⟩
  · rw [sht31_read_recv_failed k a.env s hsend hrecv]
  · rw [sht31_read_recv_failed k a.env s hsend hrecv]
  · rw [attr_show_stale k a s hstale, sht31_read_recv_failed k a.env s hsend hrecv]
  · rw [hmeas]
    exact hstale
  · intro next hnext
    have hnext2 : time_after k next.env.jiffies (attr_show k a s).2.meas.exp_time = true := by
      rw [hmeas]
      exact hnext
    rw [attr_show_stale k next _ hnext2]
    exact sht31_read_starts_with_send k next.env _

theorem recv_failure_keeps_cache_witness :
    (sht31_read linux32 recv_fail_env expired_session).1 = recv_fail_env.recv_ret ∧
    (sht31_read linux32 recv_fail_env expired_session).2.meas = expired_session.meas ∧
    (attr_show linux32 ⟨Attr.humidity, recv_fail_env⟩ expired_session).2.meas =
      expired_session.meas ∧
    (attr_show linux32 ⟨Attr.humidity, recv_fail_env⟩ expired_session).1 =
      sprintf_d (cached_value Attr.humidity expired_session.meas) ∧
    time_after linux32 recv_fail_env.jiffies
      (attr_show linux32 ⟨Attr.humidity, recv_fail_env⟩ expired_session).2.meas.exp_time = true ∧
    (∀ next : Access, time_after linux32 next.env.jiffies expired_session.meas.exp_time = true →
      ∃ rest,
        (attr_show linux32 next
            (attr_show linux32 ⟨Attr.humidity, recv_fail_env⟩ expired_session).2).2.trace =
          (attr_show linux32 ⟨Attr.humidity, recv_fail_env⟩ expired_session).2.trace ++
            Event.i2c_master_send cmd :: rest) :=
  recv_failure_keeps_cache linux32 ⟨Attr.humidity, recv_fail_env⟩ expired_session
    (by decide) (by decide) (by decide)

/-- C5 (as amended): when the current tick is strictly after the expiry tick,
by at most half the range of `unsigned long` (`2 ^ (BITS_PER_LONG - 1)` ticks),
a single temperature or humidity read performs exactly one send, of the command
bytes `[0x24, 0x00]`; when that send succeeds it is followed by exactly one
receive of 6 bytes, and when the send fails no receive is performed. In both
cases the read then returns a value. The stored `exp_time` is the counter value
of the expiry tick. -/
theorem stale_read_bus_calls (k : Kernel) (hw : 0 < k.BITS_PER_LONG) (a : Access) (s : sht31)
    (expiry : Nat) (hexp : s.meas.exp_time = ulong k expiry)
    (hpast : expiry < a.env.jiffies)
    (hnear : a.env.jiffies - expiry ≤ 2 ^ (k.BITS_PER_LONG - 1)) :
    cmd = [0x24, 0x00] ∧
    bus_calls (attr_show k a s).2.trace =
      bus_calls s.trace ++
        (if a.env.send_ret < 0 then [Event.i2c_master_send cmd]
         else [Event.i2c_master_send cmd, Event.i2c_master_recv 6]) ∧
    (attr_show k a s).1 = sprintf_d (cached_value a.attr (attr_show k a s).2.meas) ∧
    0 < (attr_show k a s).1.ret := by
  have hstale : time_after k a.env.jiffies s.meas.exp_time = true := by
    rw [hexp]
    exact time_after_of_past k hw expiry a.env.jiffies hpast hnear
  rw [attr_show_stale k a s hstale]
  refine ⟨rfl, ?_, rfl, sprintf_d_ret_pos _⟩
  by_cases hsend : a.env.send_ret < 0
  · rw [sht31_read_send_failed k a.env s hsend, if_pos hsend]
    simp [bus_calls]
  · rw [if_neg hsend]
    by_cases hrecv : a.env.recv_ret < 0
    · rw [sht31_read_recv_failed k a.env s (not_lt.mp hsend) hrecv]
      simp [bus_calls]
    · rw [sht31_read_ok k a.env s (not_lt.mp hsend) (not_lt.mp hrecv)]
      simp [bus_calls]

theorem stale_read_bus_calls_witness :
    cmd = [0x24, 0x00] ∧
    bus_calls (attr_show linux64 ⟨Attr.temperature, golden_env⟩ expired_session).2.trace =
      bus_calls expired_session.trace ++
        (if golden_env.send_ret < 0 then [Event.i2c_master_send cmd]
         else [Event.i2c_master_send cmd, Event.i2c_master_recv 6]) ∧
    (attr_show linux64 ⟨Attr.temperature, golden_env⟩ expired_session).1 =
      sprintf_d (cached_value Attr.temperature
        (attr_show linux64 ⟨Attr.temperature, golden_env⟩ expired_session).2.meas) ∧
    0 < (attr_show linux64 ⟨Attr.temperature, golden_env⟩ expired_session).1.ret :=
  stale_read_bus_calls linux64 (by decide) ⟨Attr.temperature, golden_env⟩ expired_session
    1000 (by decide) (by decide) (by decide)

/-- C5 (as stated) fails in two ways, both with the expiry (tick 1000) strictly
in the past on a 32-bit kernel. At tick 5000 with a send that is not
acknowledged, a temperature read performs one send and no receive. At tick
`2147484649`, which is `2 ^ 31 + 1` ticks after the expiry, a temperature read
performs no transport call at all and returns the expired value, although both
transfers would have succeeded. -/
theorem stale_read_without_exchange :
    (expired_session.meas.exp_time < send_fail_env.jiffies ∧
      bus_calls (sht31_temp_show linux32 send_fail_env expired_session).2.trace =
        [Event.i2c_master_send [0x24, 0x00]] ∧
      bus_calls (sht31_temp_show linux32 send_fail_env expired_session).2.trace ≠
        [Event.i2c_master_send [0x24, 0x00], Event.i2c_master_recv 6]) ∧
    (expired_session.meas.exp_time < late_env.jiffies ∧
      late_env.jiffies - expired_session.meas.exp_time = 2 ^ 31 + 1 ∧
      0 ≤ late_env.send_ret ∧ 0 ≤ late_env.recv_ret ∧
      time_after linux32 late_env.jiffies expired_session.meas.exp_time = false ∧
      (sht31_temp_show linux32 late_env expired_session).2.trace = [] ∧
      (sht31_temp_show linux32 late_env expired_session).1.text = "21\n" ∧
      bus_calls (sht31_temp_show linux32 late_env expired_session).2.trace ≠
        [Event.i2c_master_send [0x24, 0x00], Event.i2c_master_recv 6]) := by
  decide

/-- C7 at its failing input: on a 32-bit kernel ten seconds after boot (the
counter starts at `INITIAL_JIFFIES`, in the upper half of its range), the first
read of a zero-initialised session is served as a cache hit: no transport call
is made and the text `0` is returned, although the sensor would have
answered. -/
theorem first_read_served_from_empty_cache :
    time_after linux32 boot_env.jiffies zero_session.meas.exp_time = false ∧
    sht31_temp_show linux32 boot_env zero_session = (⟨"0\n", 2⟩, zero_session) ∧
    sht31_hum_show linux32 boot_env zero_session = (⟨"0\n", 2⟩, zero_session) ∧
    (sht31_temp_show linux32 boot_env zero_session).2.trace = [] ∧
    (sht31_hum_show linux32 boot_env zero_session).2.trace = [] := by
  decide

/-- Whatever the cache holds when the session is created, a first read made at
a tick whose counter value equals the stored expiry is served from it without
any transport call. -/
theorem first_read_hit_for_any_content (k : Kernel) (a : Access) (m : sht31_measurement)
    (htick : a.env.jiffies = m.exp_time) :
    attr_show k a { meas := m, trace := [] } =
      (sprintf_d (cached_value a.attr m), { meas := m, trace := [] }) := by
  apply attr_show_hit
  rw [htick]
  exact time_after_self k m.exp_time

/-- Where the first read of a zero-initialised session does work: at every tick
whose counter value is non-zero and at most half the range of `unsigned long`,
it starts an exchange with a send. -/
theorem first_read_sends_when_past_zero (k : Kernel) (a : Access)
    (hpos : 0 < ulong k a.env.jiffies)
    (hle : ulong k a.env.jiffies ≤ 2 ^ (k.BITS_PER_LONG - 1)) :
    ∃ rest, (attr_show k a zero_session).2.trace = Event.i2c_master_send cmd :: rest := by
  have hstale : time_after k a.env.jiffies zero_session.meas.exp_time = true :=
    time_after_zero k a.env.jiffies hpos hle
  rw [attr_show_stale k a _ hstale]
  obtain ⟨rest, hrest⟩ := sht31_read_starts_with_send k a.env zero_session
  exact ⟨rest, by rw [hrest]; rfl⟩

/-! ## Attach claims -/

theorem PTR_ERR_ne_zero (n : Fin 4095) : PTR_ERR n ≠ 0 := by
  unfold PTR_ERR
  omega

/-- C9: started on a device with nothing registered, `sht31_probe` returns
non-zero exactly when one of the attach steps fails (allocation, reset-line
acquisition, creating the temperature file, creating the humidity file).
Whenever it returns non-zero, no attribute file is registered afterwards and
the reset line has not been driven; if the reset line is unavailable no file
creation is even attempted, and if creating the humidity file fails the
temperature file is removed again. On success both files are registered and
the reset line has been driven high then low. -/
theorem probe_failure_rolls_back (p : ProbeEnv) :
    ((sht31_probe p unbound_client).1 ≠ 0 ↔
      (p.kzalloc_ok = false ∨ p.rst ≠ GpiodResult.desc ∨ p.create_temp ≠ 0 ∨
        p.create_hum ≠ 0)) ∧
    ((sht31_probe p unbound_client).1 ≠ 0 →
      (sht31_probe p unbound_client).2.files = [] ∧
      rst_writes (sht31_probe p unbound_client).2.trace = []) ∧
    (p.rst ≠ GpiodResult.desc →
      (sht31_probe p unbound_client).1 ≠ 0 ∧
      ∀ a, Event.device_create_file a ∉ (sht31_probe p unbound_client).2.trace) ∧
    (p.kzalloc_ok = true → p.rst = GpiodResult.desc → p.create_temp = 0 → p.create_hum ≠ 0 →
      (sht31_probe p unbound_client).1 = p.create_hum ∧
      Event.device_remove_file Attr.temperature ∈ (sht31_probe p unbound_client).2.trace ∧
      (sht31_probe p unbound_client).2.files = []) ∧
    ((sht31_probe p unbound_client).1 = 0 →
      (sht31_probe p unbound_client).2.files = [Attr.temperature, Attr.humidity] ∧
      rst_writes (sht31_probe p unbound_client).2.trace =
        [Event.gpiod_set_value 1, Event.gpiod_set_value 0]) := by
  obtain ⟨kz, rst, ct, ch, hm⟩ := p
  cases kz
  · simp [sht31_probe, log_err, unbound_client, rst_writes, ENOMEM]
  · cases rst with
    | err_ptr n =>
      simp [sht31_probe, log_err, unbound_client, rst_writes, PTR_ERR_ne_zero]
    | desc =>
      by_cases hct : ct = 0
      · by_cases hch : ch = 0
        · simp [sht31_probe, device_create_file, unbound_client, rst_writes, hct, hch]
        · simp [sht31_probe, device_create_file, device_remove_file, log_err, unbound_client,
            rst_writes, hct, hch]
      · simp [sht31_probe, device_create_file, log_err, unbound_client, rst_writes, hct]

end Sht31
